import Mathlib

/-!
Shallow embedding of the blackbox_exporter probers (http.go, icmp.go,
the DNS prober and the registry-based ICMP prober) in Lean 4, together
with theorems settling the frozen claims about them.

Library calls (net.ResolveIPAddr, url.Parse, TLS config generation,
request creation, client.Do, icmp socket operations, dns client
exchange) are modelled as environment fields: each probe function takes
an environment record carrying the outcome of every external call it
makes, and the control flow around those outcomes is transliterated
from the Go source.
-/

namespace Blackbox

/-- A compiled-regexp abstraction for the Go `regexp` package: `ok` is
whether `regexp.Compile` / `regexp.MatchString` succeeds on the pattern,
`matches` is the match function of the compiled pattern. -/
structure Pattern where
  ok : Bool
  isMatch : String → Bool

/-- A resolved IP address (`net.IPAddr`): `str` is its `String()` form,
`isV4` is whether `ip.IP.To4() != nil`. -/
structure IPAddr where
  str : String
  isV4 : Bool
deriving DecidableEq

/-- TLS connection state observed on an HTTP response (`resp.TLS`). -/
structure TLSState where
  earliestCertExpiryNanos : Int
deriving DecidableEq

/-- The parts of an `http.Response` the prober reads.  The zero value
mirrors Go's `&http.Response{}`. -/
structure Response where
  statusCode : Int := 0
  contentLength : Int := 0
  tls : Option TLSState := none
  /-- Result of `ioutil.ReadAll(resp.Body)`: `none` models a read error. -/
  bodyRead : Option String := none

/-- config.HTTPProbe (the fields probeHTTP reads). -/
structure HTTPProbe where
  method : String := ""
  headers : List (String × String) := []
  body : String := ""
  validStatusCodes : List Int := []
  noFollowRedirects : Bool := false
  failIfSSL : Bool := false
  failIfNotSSL : Bool := false
  failIfMatchesRegexp : List Pattern := []
  failIfNotMatchesRegexp : List Pattern := []
  protocol : String := ""
  preferredIPProtocol : String := ""

/-- config.ICMPProbe (the fields probeICMP reads). -/
structure ICMPProbe where
  protocol : String := ""
  preferredIPProtocol : String := ""

/-- config.Module (the fields the probers read). -/
structure Module where
  http : HTTPProbe := {}
  icmp : ICMPProbe := {}

/-- Environment of one probeHTTP invocation: outcomes of the external
calls it makes, in source order. -/
structure HTTPEnv where
  /-- Whether `url.Parse(target)` succeeds. -/
  urlParseOk : Bool := true
  /-- `net.ResolveIPAddr(family, targetHost)` per address family. -/
  resolve : String → Option IPAddr := fun _ => none
  /-- Whether `module.HTTP.TLSConfig.GenerateConfig()` succeeds. -/
  tlsConfigOk : Bool := true
  /-- Whether `http.NewRequest` succeeds. -/
  requestOk : Bool := true
  /-- `client.Do(request)`: `none` models `err != nil && resp == nil`. -/
  doResp : Option Response := none
  /-- Redirect count recorded by the CheckRedirect callback. -/
  redirects : Nat := 0

/-- Result of one probeHTTP invocation: the returned pair plus the
names of the side-channel metric lines written to `w`, in order. -/
structure ProbeResult where
  success : Bool
  probeError : String
  metrics : List String
deriving DecidableEq

/-! ### matchRegularExpressions (http.go lines 30-57) -/

/-- The `config.FailIfMatchesRegexp` loop: a compile error or a match
fails the check. -/
def checkFailIfMatches : List Pattern → String → Bool × String
  | [], _ => (true, "")
  | re :: rest, body =>
    if !re.ok then (false, "Could not compile regexp")
    else if re.isMatch body then (false, "Match failed")
    else checkFailIfMatches rest body

/-- The `config.FailIfNotMatchesRegexp` loop: a compile error or a
non-match fails the check. -/
def checkFailIfNotMatches : List Pattern → String → Bool × String
  | [], _ => (true, "")
  | re :: rest, body =>
    if !re.ok then (false, "Could not compile regexp")
    else if !re.isMatch body then (false, "Match failed")
    else checkFailIfNotMatches rest body

/-- http.go matchRegularExpressions: read the body, then run both
regexp loops. -/
def matchRegularExpressions (bodyRead : Option String) (config : HTTPProbe) : Bool × String :=
  match bodyRead with
  | none => (false, "Error reading HTTP body")
  | some body =>
    let r1 := checkFailIfMatches config.failIfMatchesRegexp body
    if !r1.1 then r1
    else checkFailIfNotMatches config.failIfNotMatchesRegexp body

/-! ### Status code check (http.go lines 169-180) -/

/-- The `for _, code := range config.ValidStatusCodes` loop. -/
def statusCodeLoop : List Int → Int → Bool
  | [], _ => false
  | code :: rest, c => if c = code then true else statusCodeLoop rest c

/-- http.go lines 169-180: membership in ValidStatusCodes when
non-empty, otherwise the default 2xx acceptance. -/
def statusCheck (validStatusCodes : List Int) (code : Int) : Bool :=
  if validStatusCodes.length ≠ 0 then statusCodeLoop validStatusCodes code
  else decide (200 ≤ code ∧ code < 300)

/-! ### Header processing (http.go lines 150-156) -/

/-- ASCII fragment of Go's `unicode.IsSpace`-style separator test used
by `strings.Title`: letters, digits and underscore are not separators,
everything else is. -/
def goIsSeparator (c : Char) : Bool :=
  !((decide ('0'.toNat ≤ c.toNat) && decide (c.toNat ≤ '9'.toNat)) ||
    (decide ('a'.toNat ≤ c.toNat) && decide (c.toNat ≤ 'z'.toNat)) ||
    (decide ('A'.toNat ≤ c.toNat) && decide (c.toNat ≤ 'Z'.toNat)) ||
    c = '_')

/-- Character list worker for Go's `strings.Title`: a rune following a
separator is mapped to title case, all other runes are unchanged. -/
def goTitleAux : Char → List Char → List Char
  | _, [] => []
  | prev, c :: rest =>
    (if goIsSeparator prev then c.toUpper else c) :: goTitleAux c rest

/-- Go's `strings.Title` (ASCII fragment): the initial previous rune is
a space. -/
def goTitle (s : String) : String := String.mk (goTitleAux ' ' s.data)

/-- http.go lines 150-156: returns the value assigned to
`request.Host` (empty if never assigned) and the (key, value) pairs
passed to `request.Header.Set`, in order. -/
def applyHeaders (headers : List (String × String)) : String × List (String × String) :=
  headers.foldl
    (fun acc kv =>
      if goTitle kv.1 = "Host" then (kv.2, acc.2)
      else (acc.1, acc.2 ++ [kv]))
    ("", [])

/-! ### probeHTTP (http.go lines 59-208) -/

/-- The effective Protocol after the defaulting on http.go line 65. -/
def httpProtocol (cfg : HTTPProbe) : String :=
  if cfg.protocol = "" then "tcp" else cfg.protocol

/-- The effective PreferredIPProtocol after the defaulting on http.go
line 69 (ip6 when protocol is tcp and the field is unset). -/
def httpPreferred (cfg : HTTPProbe) : String :=
  if httpProtocol cfg = "tcp" && cfg.preferredIPProtocol = "" then "ip6"
  else cfg.preferredIPProtocol

/-- http.go lines 72-76: the fallback family is the other one. -/
def httpFallback (cfg : HTTPProbe) : String :=
  if httpPreferred cfg = "ip6" then "ip4" else "ip6"

/-- http.go lines 92-98: resolve the preferred family first and on
failure resolve the fallback family. -/
def httpResolve (resolve : String → Option IPAddr) (preferred fallbackProtocol : String) :
    Option IPAddr :=
  match resolve preferred with
  | some ip => some ip
  | none => resolve fallbackProtocol

/-- The metric names written by http.go lines 203-206, always emitted
once the classification section is reached. -/
def httpFinalMetrics : List String :=
  ["probe_http_status_code", "probe_http_content_length",
   "probe_http_redirects", "probe_http_ssl"]

/-- http.go lines 163-207: classify the outcome of `client.Do`, run the
body-regexp check when the status check passed, then the TLS checks,
and write the final metric lines. `m1` is the list of metric names
already written. -/
def httpSettle (config : HTTPProbe) (doResp : Option Response) (m1 : List String) :
    ProbeResult :=
  let s0 : Bool × String :=
    match doResp with
    | none => (false, "")
    | some resp =>
      let s1 := statusCheck config.validStatusCodes resp.statusCode
      if s1 && (config.failIfMatchesRegexp.length > 0 ||
                config.failIfNotMatchesRegexp.length > 0) then
        matchRegularExpressions resp.bodyRead config
      else (s1, "")
  let resp := doResp.getD {}
  match resp.tls with
  | some _ =>
    let m2 := m1 ++ ["probe_ssl_earliest_cert_expiry"]
    let s1 : Bool × String := if config.failIfSSL then (false, "SSL failed") else s0
    { success := s1.1, probeError := s1.2, metrics := m2 ++ httpFinalMetrics }
  | none =>
    let s1 : Bool × String := if config.failIfNotSSL then (false, "SSL failed") else s0
    { success := s1.1, probeError := s1.2, metrics := m1 ++ httpFinalMetrics }

/-- http.go probeHTTP: protocol defaulting, target parsing, address
resolution with fallback, transport setup, request construction, and
outcome classification.  Early returns carry the metric names written
so far. -/
def probeHTTP (module : Module) (env : HTTPEnv) : ProbeResult :=
  let config := module.http
  let protocol := httpProtocol config
  if protocol = "tcp" && !env.urlParseOk then
    { success := false, probeError := "Could not parse target URL", metrics := [] }
  else
    let rres := httpResolve env.resolve (httpPreferred config) (httpFallback config)
    if protocol = "tcp" && rres.isNone then
      { success := false, probeError := "Error resolving address", metrics := [] }
    else
      let m1 := ["probe_ip_protocol"]
      if !env.tlsConfigOk then
        { success := false, probeError := "Error generating TLS config", metrics := m1 }
      else if !env.requestOk then
        { success := false, probeError := "Error creating request for target", metrics := m1 }
      else
        httpSettle config env.doResp m1

/-! ### getICMPSequence (icmp.go lines 32-42, identical in both files)

The package-level counter is a Go `uint16`; `icmpSequence++` therefore
increments modulo 2^16.  The mutex only serializes calls, so the
sequential state-passing model below captures every interleaving. -/

/-- One call to getICMPSequence: increment the shared counter modulo
2^16 and return the new value (new state, returned value). -/
def getICMPSequence (icmpSequence : Nat) : Nat × Nat :=
  let s := (icmpSequence + 1) % 65536
  (s, s)

/-- Counter state after `n` calls, starting from the zero value; the
value returned by the `n`-th call (1-based) is `icmpSequenceAfter n`. -/
def icmpSequenceAfter : Nat → Nat
  | 0 => 0
  | n + 1 => (getICMPSequence (icmpSequenceAfter n)).2

/-! ### The ICMP probers (icmp.go and the registry-based variant) -/

/-- One iteration's worth of input to the ICMP read loop: either
`socket.ReadFrom` fails (with or without `nerr.Timeout()`), or it
returns a packet `rb[:n]` from `peer`. -/
inductive ReadEvent where
  | readErr (isTimeout : Bool)
  | packet (peer : String) (bytes : List Nat)
deriving DecidableEq

/-- Environment of one probeICMP invocation (either variant): outcomes
of the external calls, in source order. -/
structure ICMPEnv where
  /-- `net.ResolveIPAddr(family, target)` per address family. -/
  resolve : String → Option IPAddr := fun _ => none
  /-- Whether `icmp.ListenPacket` succeeds. -/
  listenOk : Bool := true
  /-- Whether the first `wm.Marshal(nil)` (echo request) succeeds. -/
  marshalRequestOk : Bool := true
  /-- Whether `socket.WriteTo` succeeds. -/
  writeOk : Bool := true
  /-- Whether the second `wm.Marshal(nil)` (expected reply) succeeds. -/
  marshalReplyOk : Bool := true
  /-- The bytes of the marshalled expected reply `wb`. -/
  replyBytes : List Nat := []
  /-- Whether `socket.SetReadDeadline` succeeds. -/
  setDeadlineOk : Bool := true
  /-- The successive outcomes of `socket.ReadFrom` until the deadline. -/
  events : List ReadEvent := []

/-- icmp.go lines 152-156: for IPv6 the checksum bytes of the received
packet are cleared before comparison. -/
def icmpZeroChecksum (isV6 : Bool) (rb : List Nat) : List Nat :=
  if isV6 then (rb.set 2 0).set 3 0 else rb

/-- icmp.go lines 139-160 (identical in both prober variants): the
blocking read loop.  `some true` is a matching reply, `some false` a
read timeout; a sender or byte mismatch, and any non-timeout read
error, continue the loop.  `none` means the supplied events were
exhausted with the loop still blocked (the socket deadline guarantees a
timeout event in reality). -/
def icmpReadLoop (peerStr : String) (isV6 : Bool) (wb : List Nat) :
    List ReadEvent → Option Bool
  | [] => none
  | .readErr isTimeout :: rest =>
    if isTimeout then some false else icmpReadLoop peerStr isV6 wb rest
  | .packet peer bytes :: rest =>
    if peer ≠ peerStr then icmpReadLoop peerStr isV6 wb rest
    else if icmpZeroChecksum isV6 bytes = wb then some true
    else icmpReadLoop peerStr isV6 wb rest

/-- The effective Protocol after the defaulting on icmp.go line 55. -/
def icmpProtocol (cfg : ICMPProbe) : String :=
  if cfg.protocol = "" then "icmp" else cfg.protocol

/-- icmp.go lines 60-74 (identical in both variants): the effective
(preferred, fallback) family pair.  `icmp4`/`icmp6` force one family
with an empty fallback; plain `icmp` defaults the preferred family to
ip6 and falls back to the other family. -/
def icmpFamilies (cfg : ICMPProbe) : String × String :=
  let preferred :=
    if icmpProtocol cfg = "icmp" && cfg.preferredIPProtocol = "" then "ip6"
    else cfg.preferredIPProtocol
  if icmpProtocol cfg = "icmp4" then ("ip4", "")
  else if icmpProtocol cfg = "icmp6" then ("ip6", "")
  else if preferred = "ip6" then (preferred, "ip4")
  else (preferred, "ip6")

/-- icmp.go lines 77-80 (identical in both variants): resolve the
preferred family; on failure resolve the fallback family only when one
is set. -/
def icmpResolve (resolve : String → Option IPAddr) (preferred fallbackProtocol : String) :
    Option IPAddr :=
  match resolve preferred with
  | some ip => some ip
  | none => if fallbackProtocol ≠ "" then resolve fallbackProtocol else none

/-- Result of the text-based probeICMP (icmp.go): the returned pair and
the names of the metric lines written to `w`, in order.  `success` is
`none` when the read loop was still blocked after the supplied events. -/
structure ICMPResult where
  success : Option Bool
  probeError : String
  metrics : List String
deriving DecidableEq

/-- icmp.go probeICMP (the variant that writes metric lines to the
response writer): family selection, resolution with fallback, socket
setup, echo request send, expected-reply construction, read loop. -/
def probeICMP (module : Module) (env : ICMPEnv) : ICMPResult :=
  let cfg := module.icmp
  let fams := icmpFamilies cfg
  let rres := icmpResolve env.resolve fams.1 fams.2
  let m1 := ["probe_dns_lookup_time_seconds"]
  match rres with
  | none => { success := some false, probeError := "Error resolving address", metrics := m1 }
  | some ip =>
    let isV6 := !ip.isV4
    let m2 := m1 ++ ["probe_ip_protocol"]
    if !env.listenOk then
      { success := some false, probeError := "Error listening to socket", metrics := m2 }
    else if !env.marshalRequestOk then
      { success := some false, probeError := "Error marshalling packet", metrics := m2 }
    else if !env.writeOk then
      { success := some false, probeError := "Error writing to socket", metrics := m2 }
    else if !env.marshalReplyOk then
      { success := some false, probeError := "Error marshalling packet", metrics := m2 }
    else if !env.setDeadlineOk then
      { success := some false, probeError := "Error setting socket deadline", metrics := m2 }
    else
      match icmpReadLoop ip.str isV6 env.replyBytes env.events with
      | some true => { success := some true, probeError := "", metrics := m2 }
      | some false =>
        { success := some false, probeError := "Timeout reading from socket", metrics := m2 }
      | none => { success := none, probeError := "", metrics := m2 }

/-- Result of the registry-based probeICMP variant: the returned
success, the gauge names registered on the registry, and the gauge
writes (`Set`/`Add`) performed, in order. -/
structure ICMPRegistryResult where
  success : Option Bool
  registered : List String
  metricsSet : List String
deriving DecidableEq

/-- The registry-based probeICMP variant (same control flow as
icmp.go's; it registers two gauges up front, records gauge writes
instead of writing text lines, and returns no diagnostic string). -/
def probeICMPRegistry (module : Module) (env : ICMPEnv) : ICMPRegistryResult :=
  let cfg := module.icmp
  let registered := ["probe_ip_protocol", "probe_dns_lookup_time_seconds"]
  let fams := icmpFamilies cfg
  let rres := icmpResolve env.resolve fams.1 fams.2
  let m1 := ["probe_dns_lookup_time_seconds"]
  match rres with
  | none => { success := some false, registered, metricsSet := m1 }
  | some ip =>
    let isV6 := !ip.isV4
    let m2 := m1 ++ ["probe_ip_protocol"]
    if !env.listenOk then
      { success := some false, registered, metricsSet := m2 }
    else if !env.marshalRequestOk then
      { success := some false, registered, metricsSet := m2 }
    else if !env.writeOk then
      { success := some false, registered, metricsSet := m2 }
    else if !env.marshalReplyOk then
      { success := some false, registered, metricsSet := m2 }
    else if !env.setDeadlineOk then
      { success := some false, registered, metricsSet := m2 }
    else
      match icmpReadLoop ip.str isV6 env.replyBytes env.events with
      | some true => { success := some true, registered, metricsSet := m2 }
      | some false => { success := some false, registered, metricsSet := m2 }
      | none => { success := none, registered, metricsSet := m2 }

/-! ### The DNS prober (validRcode, validRRs, ProbeDNS) -/

/-- A DNSRRValidator: the two regexp lists of one record section.  A
resource record is represented by its textual form (`rr.String()`),
which is all `validRRs` inspects. -/
structure DNSRRValidator where
  failIfMatchesRegexp : List Pattern := []
  failIfNotMatchesRegexp : List Pattern := []

/-- config.DNSProbe (the fields ProbeDNS reads).  `validRcodes` is
`none` for a nil Go slice (field unset). -/
structure DNSProbe where
  queryName : String := ""
  queryType : String := ""
  validRcodes : Option (List String) := none
  validateAnswer : DNSRRValidator := {}
  validateAuthority : DNSRRValidator := {}
  validateAdditional : DNSRRValidator := {}
  transportProtocol : String := ""
  preferredIPProtocol : String := ""

/-- The parts of a `dns.Msg` response ProbeDNS reads: the rcode and the
textual forms of the three record sections. -/
structure DNSResponse where
  rcode : Int := 0
  answer : List String := []
  ns : List String := []
  extra : List String := []

/-- Environment of one ProbeDNS invocation. -/
structure DNSEnv where
  /-- Result of `chooseProtocol` (preferred/fallback resolution). -/
  chooseResult : Option IPAddr := none
  /-- Whether `dns.StringToType` knows the configured QueryType. -/
  queryTypeKnown : Bool := true
  /-- `client.Exchange`: `none` models a transport error or timeout. -/
  exchange : Option DNSResponse := none

/-- The `dns.StringToRcode` table of the miekg/dns library (external
dependency): response-code name to numeric value. -/
def stringToRcode : List (String × Int) :=
  [("NOERROR", 0), ("FORMERR", 1), ("SERVFAIL", 2), ("NXDOMAIN", 3),
   ("NOTIMP", 4), ("REFUSED", 5), ("YXDOMAIN", 6), ("YXRRSET", 7),
   ("NXRRSET", 8), ("NOTAUTH", 9), ("NOTZONE", 10), ("BADSIG", 16),
   ("BADKEY", 17), ("BADTIME", 18), ("BADMODE", 19), ("BADNAME", 20),
   ("BADALG", 21), ("BADTRUNC", 22), ("BADCOOKIE", 23)]

/-- Lookup in `dns.StringToRcode`. -/
def lookupRcode (s : String) : Option Int :=
  (stringToRcode.find? (fun p => p.1 = s)).map (fun p => p.2)

/-- The `for _, rcode := range valid` loop of validRcode: translate
every name, failing on the first unknown one. -/
def buildValidRcodes : List String → Option (List Int)
  | [] => some []
  | s :: rest =>
    match lookupRcode s with
    | none => none
    | some rc => (buildValidRcodes rest).map (fun l => rc :: l)

/-- validRcode (DNS prober lines 63-86): a nil list means only NOERROR
is valid; otherwise every name is translated (an unknown name fails the
check) and the response rcode must be one of the translated values. -/
def validRcode (rcode : Int) (valid : Option (List String)) : Bool :=
  let validRcodes : Option (List Int) :=
    match valid with
    | none => some [(lookupRcode "NOERROR").getD 0]
    | some l => buildValidRcodes l
  match validRcodes with
  | none => false
  | some rcs => rcs.contains rcode

/-- The `for _, re := range v.FailIfMatchesRegexp` loop of validRRs: a
match error or a match fails the section. -/
def checkRRFailIf : List Pattern → String → Bool
  | [], _ => true
  | re :: rest, rr =>
    if !re.ok then false
    else if re.isMatch rr then false
    else checkRRFailIf rest rr

/-- The `for _, re := range v.FailIfNotMatchesRegexp` loop of validRRs:
a match error or a non-match fails the section. -/
def checkRRFailIfNot : List Pattern → String → Bool
  | [], _ => true
  | re :: rest, rr =>
    if !re.ok then false
    else if !re.isMatch rr then false
    else checkRRFailIfNot rest rr

/-- The `for _, rr := range *rrs` loop of validRRs. -/
def validRRsLoop : List String → DNSRRValidator → Bool
  | [], _ => true
  | rr :: rest, v =>
    if !checkRRFailIf v.failIfMatchesRegexp rr then false
    else if !checkRRFailIfNot v.failIfNotMatchesRegexp rr then false
    else validRRsLoop rest v

/-- validRRs (DNS prober lines 30-61): an empty RR set fails only when
FailIfNotMatchesRegexp is set; otherwise each RR's textual form is
checked against both regexp lists. -/
def validRRs (rrs : List String) (v : DNSRRValidator) : Bool :=
  if rrs.length = 0 && v.failIfNotMatchesRegexp.length > 0 then false
  else validRRsLoop rrs v

/-- Last-wins characterization of the `request.Host` assignments made
by the header loop: the value of the last header whose `strings.Title`
form is "Host", with default `d`. -/
def hostOf : List (String × String) → String → String
  | [], d => d
  | kv :: rest, d =>
    if goTitle kv.1 = "Host" then hostOf rest kv.2 else hostOf rest d

/-- ProbeDNS (DNS prober lines 88-184): transport defaulting,
resolution, query-type translation, exchange, then rcode and
three-section RR validation. -/
def probeDNS (dnsCfg : DNSProbe) (env : DNSEnv) : Bool :=
  let transport :=
    if dnsCfg.transportProtocol = "" then "udp" else dnsCfg.transportProtocol
  if transport = "udp" || transport = "tcp" then
    match env.chooseResult with
    | none => false
    | some _ =>
      if dnsCfg.queryType ≠ "" && !env.queryTypeKnown then false
      else
        match env.exchange with
        | none => false
        | some response =>
          if !validRcode response.rcode dnsCfg.validRcodes then false
          else if !validRRs response.answer dnsCfg.validateAnswer then false
          else if !validRRs response.ns dnsCfg.validateAuthority then false
          else if !validRRs response.extra dnsCfg.validateAdditional then false
          else true
  else false

/-! ## Helper lemmas -/

/-- The ValidStatusCodes loop succeeds exactly on membership. -/
theorem statusCodeLoop_iff (codes : List Int) (c : Int) :
    statusCodeLoop codes c = true ↔ c ∈ codes := by
  induction codes with
  | nil => simp [statusCodeLoop]
  | cons x xs ih =>
    by_cases h : c = x <;> simp [statusCodeLoop, h, ih]

/-- Semantics of the status check: membership when the list is
non-empty, the 2xx range otherwise. -/
theorem statusCheck_iff (codes : List Int) (c : Int) :
    statusCheck codes c = true ↔
      (if codes = [] then 200 ≤ c ∧ c < 300 else c ∈ codes) := by
  cases codes with
  | nil => simp [statusCheck]
  | cons x xs => simp [statusCheck, statusCodeLoop_iff]

/-- Under the hypotheses that every external setup call succeeded,
probeHTTP reduces to the classification stage. -/
theorem probeHTTP_run (module : Module) (env : HTTPEnv)
    (hurl : env.urlParseOk = true) (htls : env.tlsConfigOk = true)
    (hreq : env.requestOk = true)
    (hres : (httpResolve env.resolve (httpPreferred module.http)
      (httpFallback module.http)).isSome = true) :
    probeHTTP module env = httpSettle module.http env.doResp ["probe_ip_protocol"] := by
  unfold probeHTTP
  rw [hurl, htls, hreq]
  rcases ho : httpResolve env.resolve (httpPreferred module.http)
      (httpFallback module.http) with _ | ip
  · rw [ho] at hres; simp at hres
  · simp [ho]

/-- In the classification stage, a true success implies the status
check passed. -/
theorem httpSettle_success_statusCheck (config : HTTPProbe) (r : Response)
    (m1 : List String) (h : (httpSettle config (some r) m1).success = true) :
    statusCheck config.validStatusCodes r.statusCode = true := by
  rcases htls : r.tls with _ | t <;>
    rcases hs : statusCheck config.validStatusCodes r.statusCode <;>
      rcases hf : config.failIfSSL <;>
        rcases hg : config.failIfNotSSL <;>
          simp_all [httpSettle]

/-- In the classification stage, with no body-regexp constraints and no
TLS failure flags, success is exactly the status check. -/
theorem httpSettle_success_eq (config : HTTPProbe) (r : Response) (m1 : List String)
    (h1 : config.failIfMatchesRegexp = []) (h2 : config.failIfNotMatchesRegexp = [])
    (h3 : config.failIfSSL = false) (h4 : config.failIfNotSSL = false) :
    (httpSettle config (some r) m1).success =
      statusCheck config.validStatusCodes r.statusCode := by
  rcases htls : r.tls with _ | t <;> simp [httpSettle, htls, h1, h2, h3, h4]

/-- The diagnostics the FailIfMatchesRegexp loop can produce. -/
theorem checkFailIfMatches_err (l : List Pattern) (body : String) :
    (checkFailIfMatches l body).2 ∈
      ["", "SSL failed", "Error reading HTTP body", "Could not compile regexp",
       "Match failed"] := by
  induction l with
  | nil => simp [checkFailIfMatches]
  | cons re rest ih =>
    unfold checkFailIfMatches
    by_cases h : re.ok <;> by_cases h2 : re.isMatch body <;> simp [h, h2] <;>
      simpa using ih

/-- The diagnostics the FailIfNotMatchesRegexp loop can produce. -/
theorem checkFailIfNotMatches_err (l : List Pattern) (body : String) :
    (checkFailIfNotMatches l body).2 ∈
      ["", "SSL failed", "Error reading HTTP body", "Could not compile regexp",
       "Match failed"] := by
  induction l with
  | nil => simp [checkFailIfNotMatches]
  | cons re rest ih =>
    unfold checkFailIfNotMatches
    by_cases h : re.ok <;> by_cases h2 : re.isMatch body <;> simp [h, h2] <;>
      simpa using ih

/-- The diagnostics the body-regexp check can produce. -/
theorem matchRegularExpressions_err (bodyRead : Option String) (config : HTTPProbe) :
    (matchRegularExpressions bodyRead config).2 ∈
      ["", "SSL failed", "Error reading HTTP body", "Could not compile regexp",
       "Match failed"] := by
  rcases bodyRead with _ | body
  · simp [matchRegularExpressions]
  · unfold matchRegularExpressions
    simp only
    split
    · exact checkFailIfMatches_err config.failIfMatchesRegexp body
    · exact checkFailIfNotMatches_err config.failIfNotMatchesRegexp body

/-- The diagnostics the classification stage can produce. -/
theorem httpSettle_err (config : HTTPProbe) (d : Option Response) (m1 : List String) :
    (httpSettle config d m1).probeError ∈
      ["", "SSL failed", "Error reading HTTP body", "Could not compile regexp",
       "Match failed"] := by
  rcases d with _ | r
  · rcases hf : config.failIfNotSSL <;> simp [httpSettle, hf]
  · rcases htls : r.tls with _ | t <;> rcases hf : config.failIfSSL <;>
      rcases hg : config.failIfNotSSL <;> simp [httpSettle, htls, hf, hg]
    all_goals split
    any_goals simpa using matchRegularExpressions_err r.bodyRead config
    all_goals simp

/-- The classification stage never reports a resolution failure. -/
theorem httpSettle_err_ne (config : HTTPProbe) (d : Option Response) (m1 : List String) :
    (httpSettle config d m1).probeError ≠ "Error resolving address" := by
  intro h
  have hm := httpSettle_err config d m1
  rw [h] at hm
  simp at hm

/-! ## C1 -/

/-- C1: for an HTTP probe whose request yields a response, the status
check passes iff the status code is in ValidStatusCodes when that list
is non-empty and otherwise iff it lies in [200, 300); with the list
unset, 200, 204 and 299 pass and 300 fails; and the probe's success
equals the status-check result unless a body-regexp or TLS check is
configured to force failure, success in any case implying that the
status check passed. -/
theorem C1_status_check (module : Module) (env : HTTPEnv) (r : Response)
    (codes : List Int) (c : Int)
    (hurl : env.urlParseOk = true) (htls : env.tlsConfigOk = true)
    (hreq : env.requestOk = true)
    (hres : (httpResolve env.resolve (httpPreferred module.http)
      (httpFallback module.http)).isSome = true)
    (hdo : env.doResp = some r) :
    (statusCheck codes c = true ↔
      (if codes = [] then 200 ≤ c ∧ c < 300 else c ∈ codes)) ∧
    (statusCheck [] 200 = true ∧ statusCheck [] 204 = true ∧
     statusCheck [] 299 = true ∧ statusCheck [] 300 = false) ∧
    ((probeHTTP module env).success = true →
      statusCheck module.http.validStatusCodes r.statusCode = true) ∧
    (module.http.failIfMatchesRegexp = [] → module.http.failIfNotMatchesRegexp = [] →
     module.http.failIfSSL = false → module.http.failIfNotSSL = false →
     (probeHTTP module env).success =
       statusCheck module.http.validStatusCodes r.statusCode) := by
  refine ⟨statusCheck_iff codes c, by decide, ?_, ?_⟩
  · intro h
    rw [probeHTTP_run module env hurl htls hreq hres, hdo] at h
    exact httpSettle_success_statusCheck module.http r _ h
  · intro h1 h2 h3 h4
    rw [probeHTTP_run module env hurl htls hreq hres, hdo]
    exact httpSettle_success_eq module.http r _ h1 h2 h3 h4

/-- C1 witness: the theorem applied to a concrete passing probe. -/
theorem C1_status_check_witness :
    (statusCheck [] 204 = true ↔
      (if ([] : List Int) = [] then 200 ≤ (204 : Int) ∧ (204 : Int) < 300
       else (204 : Int) ∈ ([] : List Int))) ∧
    (statusCheck [] 200 = true ∧ statusCheck [] 204 = true ∧
     statusCheck [] 299 = true ∧ statusCheck [] 300 = false) ∧
    ((probeHTTP {}
        { resolve := (fun _ => some ⟨"93.184.216.34", true⟩),
          doResp := some { statusCode := 204 } }).success = true →
      statusCheck ({} : Module).http.validStatusCodes (204 : Int) = true) ∧
    (({} : Module).http.failIfMatchesRegexp = [] →
     ({} : Module).http.failIfNotMatchesRegexp = [] →
     ({} : Module).http.failIfSSL = false → ({} : Module).http.failIfNotSSL = false →
     (probeHTTP {}
        { resolve := (fun _ => some ⟨"93.184.216.34", true⟩),
          doResp := some { statusCode := 204 } }).success =
       statusCheck ({} : Module).http.validStatusCodes (204 : Int)) :=
  C1_status_check {}
    { resolve := (fun _ => some ⟨"93.184.216.34", true⟩),
      doResp := some { statusCode := 204 } }
    { statusCode := 204 } [] 204 rfl rfl rfl rfl rfl

/-! ## C2 -/

/-- C2: the resolution policy.  For HTTP over tcp the preferred family
defaults to ip6 when unset, the preferred family is resolved first,
the other family is attempted only on failure, and resolution fails
only when both attempts fail (probeHTTP reports a resolution failure
exactly in that case).  For ICMP, protocols icmp4 and icmp6 force the
family to ip4 or ip6 with an empty fallback family, in which case no
fallback resolution is attempted, while plain icmp defaults to ip6
preferred with ip4 fallback; probeICMP reports a resolution failure
exactly when the (possibly fallback) resolution fails. -/
theorem C2_resolution (module : Module) (env : HTTPEnv) (ienv : ICMPEnv)
    (resolve : String → Option IPAddr) (p f : String) (ip : IPAddr)
    (hurl : env.urlParseOk = true) :
    (httpProtocol module.http = "tcp" → module.http.preferredIPProtocol = "" →
        httpPreferred module.http = "ip6") ∧
    (resolve p = some ip → httpResolve resolve p f = some ip) ∧
    (resolve p = none → httpResolve resolve p f = resolve f) ∧
    (httpResolve resolve p f = none ↔ resolve p = none ∧ resolve f = none) ∧
    ((probeHTTP module env).probeError = "Error resolving address" ↔
        (httpProtocol module.http = "tcp" ∧
         httpResolve env.resolve (httpPreferred module.http)
           (httpFallback module.http) = none)) ∧
    (icmpProtocol module.icmp = "icmp" → module.icmp.preferredIPProtocol = "" →
        icmpFamilies module.icmp = ("ip6", "ip4")) ∧
    (icmpProtocol module.icmp = "icmp4" → icmpFamilies module.icmp = ("ip4", "")) ∧
    (icmpProtocol module.icmp = "icmp6" → icmpFamilies module.icmp = ("ip6", "")) ∧
    (icmpResolve resolve p "" = resolve p) ∧
    (resolve p = none → f ≠ "" → icmpResolve resolve p f = resolve f) ∧
    (resolve p = some ip → icmpResolve resolve p f = some ip) ∧
    ((probeICMP module ienv).probeError = "Error resolving address" ↔
        icmpResolve ienv.resolve (icmpFamilies module.icmp).1
          (icmpFamilies module.icmp).2 = none) := by
  refine ⟨?_, ?_, ?_, ?_, ?_, ?_, ?_, ?_, ?_, ?_, ?_, ?_⟩
  · intro hp hu; simp [httpPreferred, hp, hu]
  · intro h; simp [httpResolve, h]
  · intro h; simp [httpResolve, h]
  · rcases h : resolve p with _ | ip2 <;> simp [httpResolve, h]
  · unfold probeHTTP
    rw [hurl]
    by_cases hp : httpProtocol module.http = "tcp" <;>
      rcases ho : httpResolve env.resolve (httpPreferred module.http)
        (httpFallback module.http) with _ | ip2 <;>
        rcases ht : env.tlsConfigOk <;> rcases hr : env.requestOk <;>
          simp [hp, ho, httpSettle_err_ne]
  · intro hp hu
    simp [icmpFamilies, hp, hu]
  · intro hp; simp [icmpFamilies, hp]
  · intro hp
    have hne : icmpProtocol module.icmp ≠ "icmp4" := by rw [hp]; decide
    simp [icmpFamilies, hp, hne]
  · rcases h : resolve p with _ | ip2 <;> simp [icmpResolve, h]
  · intro h hf; simp [icmpResolve, h, hf]
  · intro h; simp [icmpResolve, h]
  · unfold probeICMP
    rcases ho : icmpResolve ienv.resolve (icmpFamilies module.icmp).1
        (icmpFamilies module.icmp).2 with _ | ip2 <;>
      rcases h1 : ienv.listenOk <;> rcases h2 : ienv.marshalRequestOk <;>
        rcases h3 : ienv.writeOk <;> rcases h4 : ienv.marshalReplyOk <;>
          rcases h5 : ienv.setDeadlineOk <;> simp [ho, h1, h2, h3, h4, h5]
    rcases hl : icmpReadLoop ip2.str (!ip2.isV4) ienv.replyBytes ienv.events with _ | b
    · simp [hl]
    · rcases b <;> simp [hl]

/-- C2 witness: the theorem applied at a concrete module, environment
and resolver. -/
theorem C2_resolution_witness :
    (httpProtocol ({} : Module).http = "tcp" →
        ({} : Module).http.preferredIPProtocol = "" →
        httpPreferred ({} : Module).http = "ip6") ∧
    ((fun _ => none : String → Option IPAddr) "ip6" = some ⟨"::1", false⟩ →
        httpResolve (fun _ => none) "ip6" "ip4" = some ⟨"::1", false⟩) ∧
    ((fun _ => none : String → Option IPAddr) "ip6" = none →
        httpResolve (fun _ => none) "ip6" "ip4" =
          (fun _ => none : String → Option IPAddr) "ip4") ∧
    (httpResolve (fun _ => none) "ip6" "ip4" = none ↔
        (fun _ => none : String → Option IPAddr) "ip6" = none ∧
        (fun _ => none : String → Option IPAddr) "ip4" = none) ∧
    ((probeHTTP {} {}).probeError = "Error resolving address" ↔
        (httpProtocol ({} : Module).http = "tcp" ∧
         httpResolve ({} : HTTPEnv).resolve (httpPreferred ({} : Module).http)
           (httpFallback ({} : Module).http) = none)) ∧
    (icmpProtocol ({} : Module).icmp = "icmp" →
        ({} : Module).icmp.preferredIPProtocol = "" →
        icmpFamilies ({} : Module).icmp = ("ip6", "ip4")) ∧
    (icmpProtocol ({} : Module).icmp = "icmp4" →
        icmpFamilies ({} : Module).icmp = ("ip4", "")) ∧
    (icmpProtocol ({} : Module).icmp = "icmp6" →
        icmpFamilies ({} : Module).icmp = ("ip6", "")) ∧
    (icmpResolve (fun _ => none) "ip6" "" =
        (fun _ => none : String → Option IPAddr) "ip6") ∧
    ((fun _ => none : String → Option IPAddr) "ip6" = none → "ip4" ≠ "" →
        icmpResolve (fun _ => none) "ip6" "ip4" =
          (fun _ => none : String → Option IPAddr) "ip4") ∧
    ((fun _ => none : String → Option IPAddr) "ip6" = some ⟨"::1", false⟩ →
        icmpResolve (fun _ => none) "ip6" "ip4" = some ⟨"::1", false⟩) ∧
    ((probeICMP {} {}).probeError = "Error resolving address" ↔
        icmpResolve ({} : ICMPEnv).resolve (icmpFamilies ({} : Module).icmp).1
          (icmpFamilies ({} : Module).icmp).2 = none) :=
  C2_resolution {} {} {} (fun _ => none) "ip6" "ip4" ⟨"::1", false⟩ rfl

/-! ## C3 -/

/-- Membership characterization of the rcode-name translation loop when
every name is known. -/
theorem buildValidRcodes_known (l : List String)
    (h : ∀ s ∈ l, (lookupRcode s).isSome = true) :
    ∃ rcs, buildValidRcodes l = some rcs ∧
      ∀ rc : Int, rc ∈ rcs ↔ ∃ s ∈ l, lookupRcode s = some rc := by
  induction l with
  | nil => exact ⟨[], rfl, by simp⟩
  | cons s rest ih =>
    have hs := h s (List.mem_cons_self s rest)
    rcases hv : lookupRcode s with _ | v
    · rw [hv] at hs; simp at hs
    · obtain ⟨rcs, hb, hm⟩ := ih (fun t ht => h t (List.mem_cons_of_mem s ht))
      refine ⟨v :: rcs, ?_, ?_⟩
      · simp [buildValidRcodes, hv, hb]
      · intro rc
        constructor
        · intro hrc
          rcases List.mem_cons.mp hrc with rfl | h2
          · exact ⟨s, List.mem_cons_self s rest, hv⟩
          · obtain ⟨t, ht, hlt⟩ := (hm rc).mp h2
            exact ⟨t, List.mem_cons_of_mem s ht, hlt⟩
        · rintro ⟨t, ht, hlt⟩
          rcases List.mem_cons.mp ht with rfl | ht2
          · rw [hv] at hlt
            exact List.mem_cons.mpr (Or.inl (Option.some_inj.mp hlt).symm)
          · exact List.mem_cons.mpr (Or.inr ((hm rc).mpr ⟨t, ht2, hlt⟩))

/-- C3: with ValidRcodes nil only NOERROR (rcode 0) passes; with a
given list whose names are all known, the check passes exactly when the
response rcode is the translation of one of the names; and a failing
rcode check makes ProbeDNS return false. -/
theorem C3_rcode (rc : Int) (l : List String) (dnsCfg : DNSProbe) (env : DNSEnv)
    (resp : DNSResponse)
    (hknown : ∀ s ∈ l, (lookupRcode s).isSome = true)
    (hex : env.exchange = some resp) :
    (validRcode rc none = true ↔ rc = 0) ∧
    (validRcode rc (some l) = true ↔ ∃ s ∈ l, lookupRcode s = some rc) ∧
    (validRcode resp.rcode dnsCfg.validRcodes = false → probeDNS dnsCfg env = false) := by
  refine ⟨?_, ?_, ?_⟩
  · have h0 : validRcode rc none = ([0] : List Int).contains rc := rfl
    rw [h0]
    simp
  · obtain ⟨rcs, hb, hm⟩ := buildValidRcodes_known l hknown
    have h1 : validRcode rc (some l) = rcs.contains rc := by
      unfold validRcode
      simp [hb]
    rw [h1]
    simp [List.contains, hm]
  · intro hv
    unfold probeDNS
    simp only [hex, hv]
    split <;> split
    any_goals rfl
    all_goals rcases hc : env.chooseResult with _ | ip <;> simp [hc]

/-- C3 witness: the theorem applied to a concrete REFUSED response
against ValidRcodes of NOERROR and NXDOMAIN. -/
theorem C3_rcode_witness :
    (validRcode 3 none = true ↔ (3 : Int) = 0) ∧
    (validRcode 3 (some ["NOERROR", "NXDOMAIN"]) = true ↔
      ∃ s ∈ ["NOERROR", "NXDOMAIN"], lookupRcode s = some 3) ∧
    (validRcode ({ rcode := 5 } : DNSResponse).rcode ({} : DNSProbe).validRcodes = false →
      probeDNS {} { exchange := some { rcode := 5 } } = false) :=
  C3_rcode 3 ["NOERROR", "NXDOMAIN"] {} { exchange := some { rcode := 5 } }
    { rcode := 5 } (by decide) rfl

/-! ## C4 -/

/-- The FailIfMatchesRegexp RR loop fails exactly when some pattern
matches, provided every pattern compiles. -/
theorem checkRRFailIf_iff (l : List Pattern) (rr : String)
    (h : ∀ re ∈ l, re.ok = true) :
    checkRRFailIf l rr = false ↔ ∃ re ∈ l, re.isMatch rr = true := by
  induction l with
  | nil => simp [checkRRFailIf]
  | cons re rest ih =>
    have hok := h re (List.mem_cons_self re rest)
    have ih2 := ih (fun t ht => h t (List.mem_cons_of_mem re ht))
    by_cases hm : re.isMatch rr <;> simp [checkRRFailIf, hok, hm, ih2]

/-- The FailIfNotMatchesRegexp RR loop fails exactly when some pattern
does not match, provided every pattern compiles. -/
theorem checkRRFailIfNot_iff (l : List Pattern) (rr : String)
    (h : ∀ re ∈ l, re.ok = true) :
    checkRRFailIfNot l rr = false ↔ ∃ re ∈ l, re.isMatch rr = false := by
  induction l with
  | nil => simp [checkRRFailIfNot]
  | cons re rest ih =>
    have hok := h re (List.mem_cons_self re rest)
    have ih2 := ih (fun t ht => h t (List.mem_cons_of_mem re ht))
    by_cases hm : re.isMatch rr <;> simp [checkRRFailIfNot, hok, hm, ih2]

/-- The outer RR loop fails exactly when some RR fails one of the two
per-record checks. -/
theorem validRRsLoop_iff (rrs : List String) (v : DNSRRValidator) :
    validRRsLoop rrs v = false ↔ ∃ rr ∈ rrs,
      (checkRRFailIf v.failIfMatchesRegexp rr = false ∨
       checkRRFailIfNot v.failIfNotMatchesRegexp rr = false) := by
  induction rrs with
  | nil => simp [validRRsLoop]
  | cons rr rest ih =>
    by_cases h1 : checkRRFailIf v.failIfMatchesRegexp rr <;>
      by_cases h2 : checkRRFailIfNot v.failIfNotMatchesRegexp rr <;>
        simp [validRRsLoop, h1, h2, ih]

/-- C4: an empty RR set fails validation exactly when a must-not-match
expectation (FailIfNotMatchesRegexp) is configured; a non-empty RR set
fails exactly when some RR matches a FailIfMatchesRegexp pattern or
fails to match a FailIfNotMatchesRegexp pattern (patterns assumed to
compile, as config validation guarantees). -/
theorem C4_validRRs (rrs : List String) (v : DNSRRValidator)
    (hok1 : ∀ re ∈ v.failIfMatchesRegexp, re.ok = true)
    (hok2 : ∀ re ∈ v.failIfNotMatchesRegexp, re.ok = true) :
    (validRRs [] v = false ↔ v.failIfNotMatchesRegexp ≠ []) ∧
    (rrs ≠ [] → (validRRs rrs v = false ↔ ∃ rr ∈ rrs,
      ((∃ re ∈ v.failIfMatchesRegexp, re.isMatch rr = true) ∨
       (∃ re ∈ v.failIfNotMatchesRegexp, re.isMatch rr = false)))) := by
  constructor
  · rcases hl : v.failIfNotMatchesRegexp with _ | ⟨re, rest⟩ <;>
      simp [validRRs, validRRsLoop, hl]
  · intro hne
    have hlen : ¬(rrs.length = 0) := by
      rcases rrs with _ | ⟨a, b⟩
      · exact absurd rfl hne
      · simp
    unfold validRRs
    rw [if_neg (by simp [hlen])]
    rw [validRRsLoop_iff rrs v]
    constructor
    · rintro ⟨rr, hrr, hor⟩
      refine ⟨rr, hrr, ?_⟩
      rcases hor with h | h
      · exact Or.inl ((checkRRFailIf_iff v.failIfMatchesRegexp rr hok1).mp h)
      · exact Or.inr ((checkRRFailIfNot_iff v.failIfNotMatchesRegexp rr hok2).mp h)
    · rintro ⟨rr, hrr, hor⟩
      refine ⟨rr, hrr, ?_⟩
      rcases hor with h | h
      · exact Or.inl ((checkRRFailIf_iff v.failIfMatchesRegexp rr hok1).mpr h)
      · exact Or.inr ((checkRRFailIfNot_iff v.failIfNotMatchesRegexp rr hok2).mpr h)

/-- C4 witness: the theorem applied to a concrete one-record section
with one must-match pattern that does not match. -/
theorem C4_validRRs_witness :
    (validRRs []
        { failIfNotMatchesRegexp := [⟨true, fun s => s = "example.com.\t3600\tIN\tA\t1.2.3.4"⟩] } =
          false ↔
      ({ failIfNotMatchesRegexp :=
          [⟨true, fun s => s = "example.com.\t3600\tIN\tA\t1.2.3.4"⟩] } :
            DNSRRValidator).failIfNotMatchesRegexp ≠ []) ∧
    (["other record"] ≠ ([] : List String) →
      (validRRs ["other record"]
          { failIfNotMatchesRegexp :=
              [⟨true, fun s => s = "example.com.\t3600\tIN\tA\t1.2.3.4"⟩] } = false ↔
        ∃ rr ∈ ["other record"],
          ((∃ re ∈ ({ failIfNotMatchesRegexp :=
                [⟨true, fun s => s = "example.com.\t3600\tIN\tA\t1.2.3.4"⟩] } :
                  DNSRRValidator).failIfMatchesRegexp, re.isMatch rr = true) ∨
           (∃ re ∈ ({ failIfNotMatchesRegexp :=
                [⟨true, fun s => s = "example.com.\t3600\tIN\tA\t1.2.3.4"⟩] } :
                  DNSRRValidator).failIfNotMatchesRegexp, re.isMatch rr = false)))) :=
  C4_validRRs ["other record"]
    { failIfNotMatchesRegexp := [⟨true, fun s => s = "example.com.\t3600\tIN\tA\t1.2.3.4"⟩] }
    (by intro re h; simp at h) (by intro re h; simp at h; rw [h])

/-! ## C5 -/

/-- C5 counterexample: on a transport failure with no response
(client.Do yields an error and a nil response), probeHTTP does not
return the diagnostic "request error"; the error is only logged, and
the TLS-absence check still runs, so with FailIfNotSSL set the returned
diagnostic is "SSL failed". -/
theorem C5_counterexample :
    (probeHTTP { http := { failIfNotSSL := true } }
        { resolve := (fun _ => some ⟨"93.184.216.34", true⟩),
          doResp := none }).success = false ∧
    (probeHTTP { http := { failIfNotSSL := true } }
        { resolve := (fun _ => some ⟨"93.184.216.34", true⟩),
          doResp := none }).probeError = "SSL failed" ∧
    (probeHTTP { http := { failIfNotSSL := true } }
        { resolve := (fun _ => some ⟨"93.184.216.34", true⟩),
          doResp := none }).probeError ≠ "request error" := by
  refine ⟨rfl, rfl, by decide⟩

/-- C5 (amended): on a transport failure with no response, probeHTTP
returns success false with an empty diagnostic (the transport error is
only logged) unless FailIfNotSSL is set, in which case the diagnostic
is "SSL failed"; the status-code and body-regexp checks are skipped,
and the final side-channel metric lines are still written. -/
theorem C5_nil_response (module : Module) (env : HTTPEnv)
    (hurl : env.urlParseOk = true) (htls : env.tlsConfigOk = true)
    (hreq : env.requestOk = true)
    (hres : (httpResolve env.resolve (httpPreferred module.http)
      (httpFallback module.http)).isSome = true)
    (hdo : env.doResp = none) :
    (probeHTTP module env).success = false ∧
    (probeHTTP module env).probeError =
      (if module.http.failIfNotSSL then "SSL failed" else "") ∧
    (probeHTTP module env).metrics = "probe_ip_protocol" :: httpFinalMetrics := by
  rw [probeHTTP_run module env hurl htls hreq hres, hdo]
  rcases hf : module.http.failIfNotSSL <;> simp [httpSettle, hf, httpFinalMetrics]

/-- C5 witness: the amended theorem applied to a concrete probe with
FailIfNotSSL unset. -/
theorem C5_nil_response_witness :
    (probeHTTP {} { resolve := (fun _ => some ⟨"203.0.113.7", true⟩) }).success = false ∧
    (probeHTTP {} { resolve := (fun _ => some ⟨"203.0.113.7", true⟩) }).probeError =
      (if ({} : Module).http.failIfNotSSL then "SSL failed" else "") ∧
    (probeHTTP {} { resolve := (fun _ => some ⟨"203.0.113.7", true⟩) }).metrics =
      "probe_ip_protocol" :: httpFinalMetrics :=
  C5_nil_response {} { resolve := (fun _ => some ⟨"203.0.113.7", true⟩) }
    rfl rfl rfl rfl rfl

/-! ## C6 -/

/-- The header loop is a last-wins fold: the request authority is the
value of the last header whose strings.Title form is "Host", and the
remaining headers are set in order. -/
theorem applyHeaders_foldl (headers : List (String × String))
    (acc : String × List (String × String)) :
    headers.foldl
      (fun acc kv =>
        if goTitle kv.1 = "Host" then (kv.2, acc.2)
        else (acc.1, acc.2 ++ [kv])) acc =
    (hostOf headers acc.1,
     acc.2 ++ headers.filter (fun kv => decide (goTitle kv.1 ≠ "Host"))) := by
  induction headers generalizing acc with
  | nil => simp [hostOf]
  | cons kv rest ih =>
    by_cases h : goTitle kv.1 = "Host" <;>
      simp [hostOf, h, ih, List.filter_cons]

/-- C6 counterexample: the header key "hOST" is not special-cased: its
strings.Title form is "HOST", not "Host", so probeHTTP leaves the
request authority empty and passes ("hOST", value) to Header.Set,
contrary to the claim's case-insensitive reading. -/
theorem C6_counterexample :
    goTitle "hOST" = "HOST" ∧
    (applyHeaders [("hOST", "example.com")]).1 = "" ∧
    (applyHeaders [("hOST", "example.com")]).2 = [("hOST", "example.com")] ∧
    (applyHeaders [("host", "example.com")]).1 = "example.com" := by
  refine ⟨by decide, rfl, rfl, rfl⟩

/-- C6 (amended): a configured header sets the request authority
instead of being sent as an ordinary header exactly when its Go
strings.Title form equals "Host" — that is, for "Host" and "host" (the
first letter is case-insensitive, the rest must be lowercase), but not
for other casings such as "hOST"; all other headers are passed to
Header.Set in order, the last authority assignment winning. -/
theorem C6_header_host (headers : List (String × String)) :
    (applyHeaders headers).1 = hostOf headers "" ∧
    (applyHeaders headers).2 =
      headers.filter (fun kv => decide (goTitle kv.1 ≠ "Host")) ∧
    goTitle "Host" = "Host" ∧ goTitle "host" = "Host" ∧
    goTitle "hOST" = "HOST" ∧ goTitle "HOST" = "HOST" := by
  refine ⟨?_, ?_, by decide, by decide, by decide, by decide⟩ <;>
    simp [applyHeaders, applyHeaders_foldl]

/-! ## C7 -/

/-- C7: in the ICMP read loop a packet from the wrong sender, and a
packet whose (IPv6-checksum-cleared) bytes differ from the expected
reply, are discarded with the loop continuing; a matching packet
returns success; a timeout read error makes the probe return failure
with the timeout diagnostic, while a non-timeout read error continues
the loop. -/
theorem C7_read_loop (peerStr p : String) (isV6 : Bool) (wb bs : List Nat)
    (rest : List ReadEvent) (module : Module) (ienv : ICMPEnv) (ip : IPAddr)
    (hres : icmpResolve ienv.resolve (icmpFamilies module.icmp).1
      (icmpFamilies module.icmp).2 = some ip)
    (h1 : ienv.listenOk = true) (h2 : ienv.marshalRequestOk = true)
    (h3 : ienv.writeOk = true) (h4 : ienv.marshalReplyOk = true)
    (h5 : ienv.setDeadlineOk = true)
    (hev : ienv.events = ReadEvent.readErr true :: rest) :
    (icmpReadLoop peerStr isV6 wb (ReadEvent.readErr true :: rest) = some false) ∧
    (icmpReadLoop peerStr isV6 wb (ReadEvent.readErr false :: rest) =
      icmpReadLoop peerStr isV6 wb rest) ∧
    (p ≠ peerStr → icmpReadLoop peerStr isV6 wb (ReadEvent.packet p bs :: rest) =
      icmpReadLoop peerStr isV6 wb rest) ∧
    (icmpZeroChecksum isV6 bs ≠ wb →
      icmpReadLoop peerStr isV6 wb (ReadEvent.packet peerStr bs :: rest) =
      icmpReadLoop peerStr isV6 wb rest) ∧
    (icmpZeroChecksum isV6 bs = wb →
      icmpReadLoop peerStr isV6 wb (ReadEvent.packet peerStr bs :: rest) = some true) ∧
    ((probeICMP module ienv).success = some false ∧
     (probeICMP module ienv).probeError = "Timeout reading from socket") := by
  refine ⟨rfl, rfl, ?_, ?_, ?_, ?_⟩
  · intro h; simp [icmpReadLoop, h]
  · intro h; simp [icmpReadLoop, h]
  · intro h; simp [icmpReadLoop, h]
  · unfold probeICMP
    simp [hres, h1, h2, h3, h4, h5, hev, icmpReadLoop]

/-- C7 witness: the theorem applied to a concrete probe whose first
read is a timeout. -/
theorem C7_read_loop_witness :
    (icmpReadLoop "127.0.0.1" false [8, 0] (ReadEvent.readErr true :: []) = some false) ∧
    (icmpReadLoop "127.0.0.1" false [8, 0] (ReadEvent.readErr false :: []) =
      icmpReadLoop "127.0.0.1" false [8, 0] []) ∧
    ("10.0.0.9" ≠ "127.0.0.1" →
      icmpReadLoop "127.0.0.1" false [8, 0] (ReadEvent.packet "10.0.0.9" [7] :: []) =
      icmpReadLoop "127.0.0.1" false [8, 0] []) ∧
    (icmpZeroChecksum false [7] ≠ [8, 0] →
      icmpReadLoop "127.0.0.1" false [8, 0] (ReadEvent.packet "127.0.0.1" [7] :: []) =
      icmpReadLoop "127.0.0.1" false [8, 0] []) ∧
    (icmpZeroChecksum false [7] = [8, 0] →
      icmpReadLoop "127.0.0.1" false [8, 0] (ReadEvent.packet "127.0.0.1" [7] :: []) =
        some true) ∧
    ((probeICMP {}
        { resolve := (fun _ => some ⟨"127.0.0.1", true⟩),
          events := [ReadEvent.readErr true] }).success = some false ∧
     (probeICMP {}
        { resolve := (fun _ => some ⟨"127.0.0.1", true⟩),
          events := [ReadEvent.readErr true] }).probeError =
       "Timeout reading from socket") :=
  C7_read_loop "127.0.0.1" "10.0.0.9" false [8, 0] [7] [] {}
    { resolve := (fun _ => some ⟨"127.0.0.1", true⟩),
      events := [ReadEvent.readErr true] }
    ⟨"127.0.0.1", true⟩ rfl rfl rfl rfl rfl rfl rfl

/-! ## C8 -/

/-- The sequence counter after n calls is n modulo 2^16. -/
theorem icmpSequenceAfter_eq (n : Nat) : icmpSequenceAfter n = n % 65536 := by
  induction n with
  | zero => rfl
  | succ n ih =>
    have h : icmpSequenceAfter (n + 1) = (icmpSequenceAfter n + 1) % 65536 := rfl
    rw [h, ih]
    omega

/-- C8 counterexample: the counter is a Go uint16, so it wraps after
65536 calls: call 65537 returns the same value as call 1, refuting
global uniqueness, and call 65536 returns a smaller value than call
65535, refuting monotonicity. -/
theorem C8_counterexample :
    icmpSequenceAfter 65537 = icmpSequenceAfter 1 ∧
    icmpSequenceAfter 65536 < icmpSequenceAfter 65535 := by
  rw [icmpSequenceAfter_eq, icmpSequenceAfter_eq, icmpSequenceAfter_eq,
    icmpSequenceAfter_eq]
  norm_num

/-- C8 (amended): each getICMPSequence call returns the previous value
plus one modulo 2^16; the returned values are therefore unique (and
increasing) only within any window of fewer than 2^16 consecutive
calls, wrapping after 65536 calls. -/
theorem C8_sequence (s i j : Nat) (hij : i < j) (hwin : j < i + 65536) :
    ((getICMPSequence s).2 = (s + 1) % 65536) ∧
    (icmpSequenceAfter i = i % 65536) ∧
    icmpSequenceAfter i ≠ icmpSequenceAfter j := by
  refine ⟨rfl, icmpSequenceAfter_eq i, ?_⟩
  rw [icmpSequenceAfter_eq, icmpSequenceAfter_eq]
  omega

/-- C8 witness: the amended theorem applied to calls 1 and 2. -/
theorem C8_sequence_witness :
    ((getICMPSequence 0).2 = (0 + 1) % 65536) ∧
    (icmpSequenceAfter 1 = 1 % 65536) ∧
    icmpSequenceAfter 1 ≠ icmpSequenceAfter 2 :=
  C8_sequence 0 1 2 (by decide) (by decide)

/-! ## C9 -/

/-- C9 counterexample: on the resolution-failure path probeHTTP returns
before writing any metric line, so none of the side-channel outputs,
not even probe_ip_protocol, is emitted. -/
theorem C9_counterexample :
    (probeHTTP {} {}).probeError = "Error resolving address" ∧
    (probeHTTP {} {}).metrics = [] ∧
    "probe_ip_protocol" ∉ (probeHTTP {} {}).metrics ∧
    "probe_http_status_code" ∉ (probeHTTP {} {}).metrics := by
  refine ⟨rfl, rfl, ?_, ?_⟩ <;>
    · rw [show (probeHTTP {} {}).metrics = [] from rfl]
      simp

/-- C9 (amended): on every probe that reaches request execution (the
target parses, a family resolves, TLS config generation and request
creation succeed), probeHTTP emits probe_ip_protocol,
probe_http_status_code, probe_http_content_length,
probe_http_redirects and probe_http_ssl regardless of success, plus
probe_ssl_earliest_cert_expiry whenever TLS was observed on the
response; on earlier failure paths only the lines already written
(possibly none) are emitted. -/
theorem C9_metrics (module : Module) (env : HTTPEnv)
    (hurl : env.urlParseOk = true) (htls : env.tlsConfigOk = true)
    (hreq : env.requestOk = true)
    (hres : (httpResolve env.resolve (httpPreferred module.http)
      (httpFallback module.http)).isSome = true) :
    "probe_ip_protocol" ∈ (probeHTTP module env).metrics ∧
    "probe_http_status_code" ∈ (probeHTTP module env).metrics ∧
    "probe_http_content_length" ∈ (probeHTTP module env).metrics ∧
    "probe_http_redirects" ∈ (probeHTTP module env).metrics ∧
    "probe_http_ssl" ∈ (probeHTTP module env).metrics ∧
    (∀ r t, env.doResp = some r → r.tls = some t →
      "probe_ssl_earliest_cert_expiry" ∈ (probeHTTP module env).metrics) := by
  rw [probeHTTP_run module env hurl htls hreq hres]
  rcases hd : env.doResp with _ | r
  · refine ⟨?_, ?_, ?_, ?_, ?_, ?_⟩
    · simp [httpSettle, httpFinalMetrics]
    · simp [httpSettle, httpFinalMetrics]
    · simp [httpSettle, httpFinalMetrics]
    · simp [httpSettle, httpFinalMetrics]
    · simp [httpSettle, httpFinalMetrics]
    · intro r2 t hr ht
      cases hr
  · rcases ht2 : r.tls with _ | t2
    · refine ⟨?_, ?_, ?_, ?_, ?_, ?_⟩
      · simp [httpSettle, ht2, httpFinalMetrics]
      · simp [httpSettle, ht2, httpFinalMetrics]
      · simp [httpSettle, ht2, httpFinalMetrics]
      · simp [httpSettle, ht2, httpFinalMetrics]
      · simp [httpSettle, ht2, httpFinalMetrics]
      · intro r2 t hr ht
        injection hr with hr2
        subst hr2
        rw [ht2] at ht
        cases ht
    · refine ⟨?_, ?_, ?_, ?_, ?_, ?_⟩ <;> intros <;>
        simp [httpSettle, ht2, httpFinalMetrics]

/-- C9 witness: the amended theorem applied to a concrete TLS-bearing
response. -/
theorem C9_metrics_witness :
    "probe_ip_protocol" ∈ (probeHTTP {}
      { resolve := (fun _ => some ⟨"203.0.113.7", true⟩),
        doResp := some { statusCode := 200, tls := some ⟨1893456000000000000⟩ } }).metrics ∧
    "probe_http_status_code" ∈ (probeHTTP {}
      { resolve := (fun _ => some ⟨"203.0.113.7", true⟩),
        doResp := some { statusCode := 200, tls := some ⟨1893456000000000000⟩ } }).metrics ∧
    "probe_http_content_length" ∈ (probeHTTP {}
      { resolve := (fun _ => some ⟨"203.0.113.7", true⟩),
        doResp := some { statusCode := 200, tls := some ⟨1893456000000000000⟩ } }).metrics ∧
    "probe_http_redirects" ∈ (probeHTTP {}
      { resolve := (fun _ => some ⟨"203.0.113.7", true⟩),
        doResp := some { statusCode := 200, tls := some ⟨1893456000000000000⟩ } }).metrics ∧
    "probe_http_ssl" ∈ (probeHTTP {}
      { resolve := (fun _ => some ⟨"203.0.113.7", true⟩),
        doResp := some { statusCode := 200, tls := some ⟨1893456000000000000⟩ } }).metrics ∧
    (∀ r t,
      ({ resolve := (fun _ => some ⟨"203.0.113.7", true⟩),
         doResp := some { statusCode := 200, tls := some ⟨1893456000000000000⟩ } } :
           HTTPEnv).doResp = some r → r.tls = some t →
      "probe_ssl_earliest_cert_expiry" ∈ (probeHTTP {}
        { resolve := (fun _ => some ⟨"203.0.113.7", true⟩),
          doResp := some { statusCode := 200, tls := some ⟨1893456000000000000⟩ } }).metrics) :=
  C9_metrics {}
    { resolve := (fun _ => some ⟨"203.0.113.7", true⟩),
      doResp := some { statusCode := 200, tls := some ⟨1893456000000000000⟩ } }
    rfl rfl rfl rfl

/-! ## C10 -/

/-- C10 counterexample: the two ICMP prober variants do NOT differ in
whether DNS lookup time is reported on early resolution failure — on a
probe whose resolution fails in both families, the text variant writes
the probe_dns_lookup_time_seconds line and the registry variant also
records the probe_dns_lookup_time_seconds gauge write. -/
theorem C10_counterexample :
    (probeICMP {} {}).probeError = "Error resolving address" ∧
    "probe_dns_lookup_time_seconds" ∈ (probeICMP {} {}).metrics ∧
    "probe_dns_lookup_time_seconds" ∈ (probeICMPRegistry {} {}).metricsSet := by
  refine ⟨rfl, ?_, ?_⟩
  · rw [show (probeICMP {} {}).metrics = ["probe_dns_lookup_time_seconds"] from rfl]
    simp
  · rw [show (probeICMPRegistry {} {}).metricsSet =
      ["probe_dns_lookup_time_seconds"] from rfl]
    simp

/-- C10 (amended): the two ICMP prober variants compute the same
success outcome for every module and sequence of external events, and
record exactly the same metric names in the same order; they differ
only in the surfacing mechanism (text lines versus registry gauges,
the registry variant additionally registering its two gauges up front)
and in that the text variant also returns a diagnostic string; both
report DNS lookup time on early resolution failure. -/
theorem C10_equiv (module : Module) (env : ICMPEnv) :
    (probeICMP module env).success = (probeICMPRegistry module env).success ∧
    (probeICMP module env).metrics = (probeICMPRegistry module env).metricsSet ∧
    (probeICMPRegistry module env).registered =
      ["probe_ip_protocol", "probe_dns_lookup_time_seconds"] := by
  unfold probeICMP probeICMPRegistry
  rcases ho : icmpResolve env.resolve (icmpFamilies module.icmp).1
      (icmpFamilies module.icmp).2 with _ | ip
  · simp [ho]
  · simp only [ho]
    rcases h1 : env.listenOk <;> rcases h2 : env.marshalRequestOk <;>
      rcases h3 : env.writeOk <;> rcases h4 : env.marshalReplyOk <;>
        rcases h5 : env.setDeadlineOk <;> simp [h1, h2, h3, h4, h5]
    rcases hl : icmpReadLoop ip.str (!ip.isV4) env.replyBytes env.events with _ | b
    · simp [hl]
    · rcases b <;> simp [hl]

end Blackbox
